import Mathlib

/-!
Verification of the credential-exchange pipeline of argocd-k8s-auth-gke-wli-eks.

The development shallowly embeds the Go sources:
* pkg/k8s/credentials.go — exec-credential formatting (token encoding, expiry arithmetic);
* pkg/aws/aws.go and pkg/aws/auth.go — authenticator construction and presigned-URL
  generation (both variants present in the repository);
* pkg/cache/cache.go — cache path sanitization and Get/Put;
* main.go — the orchestrating run function;
* pkg/gcp/hybrid_metadata.go — session identifiers and fallback random strings.

Go byte strings are modelled as List Nat (each element < 256), time.Time and
time.Duration as Int nanoseconds (Go's internal representation), errors as
Except String, and nil-able interface values as Option.
-/

/-- Alphabet of Go's encoding/base64 RawURLEncoding (URL-safe, unpadded). -/
def b64Chars : List Char :=
  ['A', 'B', 'C', 'D', 'E', 'F', 'G', 'H', 'I', 'J', 'K', 'L', 'M',
   'N', 'O', 'P', 'Q', 'R', 'S', 'T', 'U', 'V', 'W', 'X', 'Y', 'Z',
   'a', 'b', 'c', 'd', 'e', 'f', 'g', 'h', 'i', 'j', 'k', 'l', 'm',
   'n', 'o', 'p', 'q', 'r', 's', 't', 'u', 'v', 'w', 'x', 'y', 'z',
   '0', '1', '2', '3', '4', '5', '6', '7', '8', '9', '-', '_']

/-- Character encoding a 6-bit value in the base64url alphabet. -/
def charOfSextet (s : Nat) : Char := b64Chars.getD s 'A'

/-- Value of a base64url character (64 when the character is not in the alphabet). -/
def sextetOfChar (c : Char) : Nat := b64Chars.indexOf c

/-- Model of base64.RawURLEncoding.EncodeToString: bytes are consumed three at a
time into four sextets; a final group of one byte yields two characters and a
final group of two bytes yields three (no padding). -/
def encodeBytes : List Nat → List Char
  | [] => []
  | [a] => [charOfSextet (a / 4), charOfSextet (a % 4 * 16)]
  | [a, b] => [charOfSextet (a / 4), charOfSextet (a % 4 * 16 + b / 16),
      charOfSextet (b % 16 * 4)]
  | a :: b :: c :: rest =>
      charOfSextet (a / 4) :: charOfSextet (a % 4 * 16 + b / 16) ::
        charOfSextet (b % 16 * 4 + c / 64) :: charOfSextet (c % 64) :: encodeBytes rest

/-- URL-safe unpadded base64 decoding, the inverse direction of the spec's
decode_base64url: four characters yield three bytes, a trailing pair yields one
byte and a trailing triple yields two. -/
def decodeChars : List Char → List Nat
  | c1 :: c2 :: c3 :: c4 :: rest =>
      (sextetOfChar c1 * 4 + sextetOfChar c2 / 16) ::
        (sextetOfChar c2 % 16 * 16 + sextetOfChar c3 / 4) ::
        (sextetOfChar c3 % 4 * 64 + sextetOfChar c4) :: decodeChars rest
  | [c1, c2] => [sextetOfChar c1 * 4 + sextetOfChar c2 / 16]
  | [c1, c2, c3] => [sextetOfChar c1 * 4 + sextetOfChar c2 / 16,
      sextetOfChar c2 % 16 * 16 + sextetOfChar c3 / 4]
  | _ => []

/-- Fixed version tag of v1 tokens, Go constant TokenV1Prefix = "k8s-aws-v1."
(pkg/k8s/credentials.go). -/
def tokenV1 : String := "k8s-aws-v1."

/-- Go constant TokenExpirationBuffer = 1 * time.Minute, in nanoseconds. -/
def tokenExpirationBuffer : Int := 60 * 1000000000

/-- The ExecCredential artifact built by GenerateExecCredential, before JSON
marshalling (the wire format is an excluded external collaborator). -/
structure ExecCredential where
  apiVersion : String
  kind : String
  token : String
  expirationTimestamp : Int
  deriving DecidableEq, Repr

/-- Model of CredentialGenerator.GenerateExecCredential (pkg/k8s/credentials.go
lines 29-51): token = TokenV1Prefix ++ base64url(presignedURL bytes), expiration
= requested expiration minus TokenExpirationBuffer. -/
def generateExecCredential (presignedURL : List Nat) (expiration : Int) : ExecCredential :=
  { apiVersion := "client.authentication.k8s.io/v1beta1"
    kind := "ExecCredential"
    token := tokenV1 ++ String.mk (encodeBytes presignedURL)
    expirationTimestamp := expiration - tokenExpirationBuffer }

/-- Stripping the fixed version tag from the front of a token string. -/
def stripTokenV1 (s : String) : String := String.mk (s.data.drop tokenV1.length)

/-- Decoding a character produced from a 6-bit value recovers the value. -/
theorem sextet_round : ∀ s : Nat, s < 64 → sextetOfChar (charOfSextet s) = s := by decide

/-- base64url decoding inverts encoding on every byte list. -/
theorem decode_encode : ∀ bs : List Nat, (∀ b ∈ bs, b < 256) →
    decodeChars (encodeBytes bs) = bs
  | [], _ => by simp [encodeBytes, decodeChars]
  | [a], h => by
      have ha : a < 256 := h a (by simp)
      have h1 : a / 4 < 64 := by omega
      have h2 : a % 4 * 16 < 64 := by omega
      simp only [encodeBytes, decodeChars, sextet_round _ h1, sextet_round _ h2,
        List.cons.injEq, and_true]
      omega
  | [a, b], h => by
      have ha : a < 256 := h a (by simp)
      have hb : b < 256 := h b (by simp)
      have h1 : a / 4 < 64 := by omega
      have h2 : a % 4 * 16 + b / 16 < 64 := by omega
      have h3 : b % 16 * 4 < 64 := by omega
      simp only [encodeBytes, decodeChars, sextet_round _ h1, sextet_round _ h2,
        sextet_round _ h3, List.cons.injEq, and_true]
      omega
  | a :: b :: c :: rest, h => by
      have ha : a < 256 := h a (by simp)
      have hb : b < 256 := h b (by simp)
      have hc : c < 256 := h c (by simp)
      have hr : ∀ x ∈ rest, x < 256 := fun x hx => h x (by simp [hx])
      have h1 : a / 4 < 64 := by omega
      have h2 : a % 4 * 16 + b / 16 < 64 := by omega
      have h3 : b % 16 * 4 + c / 64 < 64 := by omega
      have h4 : c % 64 < 64 := by omega
      have ih := decode_encode rest hr
      simp only [encodeBytes, decodeChars, sextet_round _ h1, sextet_round _ h2,
        sextet_round _ h3, sextet_round _ h4, ih, List.cons.injEq, and_true]
      omega

/-- C2: stripping the fixed "k8s-aws-v1." tag from the token field of
GenerateExecCredential(url, t) and decoding the remainder as URL-safe unpadded
base64 yields exactly the url's bytes, for any non-empty url and any time t. -/
theorem generateExecCredential_token_roundTrip (url : List Nat) (hne : url ≠ [])
    (hb : ∀ b ∈ url, b < 256) (t : Int) :
    decodeChars (stripTokenV1 (generateExecCredential url t).token).data = url := by
  have htok : (generateExecCredential url t).token = tokenV1 ++ String.mk (encodeBytes url) := rfl
  rw [htok]
  show decodeChars ((tokenV1 ++ String.mk (encodeBytes url)).data.drop tokenV1.length) = url
  rw [String.data_append]
  have hlen : tokenV1.length = (tokenV1.data).length := rfl
  rw [hlen]
  rw [List.drop_left]
  exact decode_encode url hb

/-- Witness for C2 at url bytes [104, 105] ("hi") and t = 0. -/
theorem generateExecCredential_token_roundTrip_witness :
    decodeChars (stripTokenV1 (generateExecCredential [104, 105] 0).token).data
      = [104, 105] :=
  generateExecCredential_token_roundTrip [104, 105] (by decide) (by decide) 0

/-- C3: the expirationTimestamp of the artifact produced by
GenerateExecCredential(url, t) is exactly t minus the one-minute safety buffer. -/
theorem generateExecCredential_expiration (url : List Nat) (t : Int) :
    (generateExecCredential url t).expirationTimestamp = t - 60 * 1000000000 := rfl

/-- Model of the aws.TokenRetriever interface value: retrieval yields either
the identity token bytes or an error. -/
structure TokenRetriever where
  getIdentityToken : Except String (List Nat)

/-- AWS credentials triple (sts types.Credentials). -/
structure Credentials where
  accessKeyId : String
  secretAccessKey : String
  sessionToken : String
  deriving DecidableEq

/-- Fields of the Authenticator struct of pkg/aws/aws.go. A constructed value
always carries a token retriever; a nil retriever can only appear at the
NewAuthenticator boundary, where the argument is an Option. -/
structure Authenticator where
  roleARN : String
  sessionID : String
  stsRegion : String
  tokenRetriever : TokenRetriever
  awsEndpointUrl : String

/-- NewAuthenticator of pkg/aws/aws.go (lines 92-116): validates every field
before any I/O, one fixed message per missing field, then defaults an empty
endpoint to the public regional STS endpoint. -/
def NewAuthenticator (roleARN sessionID stsRegion : String)
    (tokenRetriever : Option TokenRetriever) (awsEndpointUrl : String) :
    Except String Authenticator :=
  if roleARN = "" then .error "AWS role ARN is required"
  else if sessionID = "" then .error "session ID is required"
  else if stsRegion = "" then .error "AWS STS region is required"
  else
    match tokenRetriever with
    | none => .error "token retriever is required"
    | some tr =>
      .ok { roleARN := roleARN, sessionID := sessionID, stsRegion := stsRegion,
            tokenRetriever := tr,
            awsEndpointUrl :=
              if awsEndpointUrl = "" then
                "https://sts." ++ stsRegion ++ ".amazonaws.com"
              else awsEndpointUrl }

/-- Fields of the AWSAuthenticator struct of pkg/aws/auth.go. -/
structure AWSAuthenticator where
  roleARN : String
  sessionName : String
  region : String
  tokenRetriever : Option TokenRetriever

/-- NewAuthenticator of pkg/aws/auth.go (lines 38-53): loads the default AWS
config (external I/O whose outcome is the cfgLoad argument) and stores its
arguments without validating any of them. -/
def authNewAuthenticator (cfgLoad : Except String Unit)
    (roleARN sessionName region : String) (tokenRetriever : Option TokenRetriever) :
    Except String AWSAuthenticator :=
  match cfgLoad with
  | .error e => .error ("failed to load AWS config: " ++ e)
  | .ok _ =>
    .ok { roleARN := roleARN, sessionName := sessionName, region := region,
          tokenRetriever := tokenRetriever }

/-- Go constant HeaderEKSClusterID (pkg/config). -/
def headerEKSClusterID : String := "x-k8s-aws-id"

/-- Go constant HeaderExpires (pkg/config). -/
def headerExpires : String := "X-Amz-Expires"

/-- A presigned URL, decomposed into the query parameters present on the
request when the SigV4 signature was computed (hence covered by it), the
signature, and any text appended to the URL string after signing (not
covered). The Go URL string is renderURL of this value. -/
structure PresignedURL where
  endpoint : String
  signedParams : List (String × String)
  signature : String
  postSignedSuffix : String
  deriving DecidableEq

def renderParams : List (String × String) → String
  | [] => ""
  | (k, v) :: rest => k ++ "=" ++ v ++ "&" ++ renderParams rest

/-- The URL string handed back by the SDK, with any post-signing suffix. -/
def renderURL (u : PresignedURL) : String :=
  u.endpoint ++ "/?" ++ renderParams u.signedParams ++ "X-Amz-Signature=" ++
    u.signature ++ u.postSignedSuffix

/-- Base query parameters of a presigned GetCallerIdentity request. -/
def baseCallerIdentityParams : List (String × String) :=
  [("Action", "GetCallerIdentity"), ("Version", "2011-06-15")]

/-- Model of the SDK presigner contract (sts.HTTPPresignerV4.PresignHTTP): the
signature covers exactly the parameters present on the request at signing
time. The SigV4 computation itself is external crypto, abstracted as sig. -/
def presignHTTP (sig : List (String × String) → String) (endpoint : String)
    (requestParams : List (String × String)) : PresignedURL :=
  { endpoint := endpoint, signedParams := requestParams,
    signature := sig requestParams, postSignedSuffix := "" }

/-- CustomPresigner.PresignHTTP (pkg/aws/aws.go lines 54-68): adds each custom
header to the request and only then delegates to the wrapped presigner, so the
added headers are covered by the signature. -/
def customPresignHTTP (sig : List (String × String) → String)
    (headers : List (String × String)) (endpoint : String)
    (requestParams : List (String × String)) : PresignedURL :=
  presignHTTP sig endpoint (requestParams ++ headers)

/-- GetPresignedCallerIdentityURL of pkg/aws/aws.go (lines 138-170): retrieves
the identity token (failure aborts), then presigns GetCallerIdentity through
CustomPresigner, which injects the cluster-id header and the expiry-seconds
header inside the signing hook. expirationSeconds stands for
fmt.Sprintf("%.0f", expiration.Seconds()). -/
def GetPresignedCallerIdentityURL (sig : List (String × String) → String)
    (a : Authenticator) (clusterName : String) (_creds : Credentials)
    (expirationSeconds : Nat) : Except String PresignedURL :=
  match a.tokenRetriever.getIdentityToken with
  | .error e => .error ("failed to get AWS config: failed to get identity token: " ++ e)
  | .ok _ =>
    .ok (customPresignHTTP sig
      [(headerEKSClusterID, clusterName), (headerExpires, toString expirationSeconds)]
      a.awsEndpointUrl baseCallerIdentityParams)

/-- The second GetPresignedCallerIdentityURL of pkg/aws/aws.go (lines 301-328):
presigns GetCallerIdentity without the custom presigner and then appends
"&cluster-name=<cluster>" to the already-signed URL string. -/
def GetPresignedCallerIdentityURLAppend (sig : List (String × String) → String)
    (a : Authenticator) (clusterName : String) (_creds : Credentials) :
    Except String PresignedURL :=
  match a.tokenRetriever.getIdentityToken with
  | .error e => .error ("failed to get AWS config: failed to get identity token: " ++ e)
  | .ok _ =>
    let output := presignHTTP sig a.awsEndpointUrl baseCallerIdentityParams
    .ok { output with postSignedSuffix := "&cluster-name=" ++ clusterName }

/-- A rendered presigned URL is never the empty string. -/
theorem renderURL_ne_empty (u : PresignedURL) : renderURL u ≠ "" := by
  intro h
  have hlen : (renderURL u).length = 0 := by rw [h]; rfl
  unfold renderURL at hlen
  simp only [String.length_append] at hlen
  have h2 : ("/?" : String).length = 2 := rfl
  omega

/-- Token retriever whose retrieval succeeds with byte 116. -/
def trOk : TokenRetriever := ⟨.ok [116]⟩

/-- Concrete credentials for witnesses. -/
def creds0 : Credentials := ⟨"AKID", "SECRET", "SESSION"⟩

/-- Concrete stand-in for the external SigV4 signature function. -/
def sig0 : List (String × String) → String := fun _ => "examplesignature"

/-- Concrete valid authenticator for witnesses. -/
def auth0 : Authenticator :=
  ⟨"arn:aws:iam::123456789012:role/test-role", "test-session", "us-east-1", trOk,
    "https://sts.us-east-1.amazonaws.com"⟩

/-- C1 (amended, hook variant): for every valid authenticator and cluster name,
a successful GetPresignedCallerIdentityURL (aws.go lines 138-170) yields a
non-empty URL whose signed parameters contain the cluster-identifier header
value verbatim, with nothing appended after signing. -/
theorem GetPresignedCallerIdentityURL_signed_cluster
    (sig : List (String × String) → String) (a : Authenticator)
    (clusterName : String) (creds : Credentials) (expSec : Nat)
    (hrole : a.roleARN ≠ "") (hsess : a.sessionID ≠ "") (hreg : a.stsRegion ≠ "")
    (u : PresignedURL)
    (hok : GetPresignedCallerIdentityURL sig a clusterName creds expSec = .ok u) :
    renderURL u ≠ "" ∧ (headerEKSClusterID, clusterName) ∈ u.signedParams ∧
      u.postSignedSuffix = "" := by
  unfold GetPresignedCallerIdentityURL at hok
  cases htok : a.tokenRetriever.getIdentityToken with
  | error e => rw [htok] at hok; exact absurd hok (by simp)
  | ok tok =>
    rw [htok] at hok
    have hu := (Except.ok.inj hok).symm
    subst hu
    refine ⟨renderURL_ne_empty _, ?_, rfl⟩
    simp [customPresignHTTP, presignHTTP]

/-- Witness value for C1: the presigned URL produced at concrete inputs. -/
def u1 : PresignedURL :=
  customPresignHTTP sig0 [(headerEKSClusterID, "test-cluster"), (headerExpires, "3600")]
    auth0.awsEndpointUrl baseCallerIdentityParams

/-- Witness for C1 at the concrete authenticator auth0 and cluster test-cluster. -/
theorem GetPresignedCallerIdentityURL_signed_cluster_witness :
    renderURL u1 ≠ "" ∧ (headerEKSClusterID, "test-cluster") ∈ u1.signedParams ∧
      u1.postSignedSuffix = "" :=
  GetPresignedCallerIdentityURL_signed_cluster sig0 auth0 "test-cluster" creds0 3600
    (by decide) (by decide) (by decide) u1 rfl

/-- C1 counterexample: the append variant (aws.go lines 301-328) returns a URL
whose signed parameters do not contain the cluster name; the cluster name only
appears in text appended after the signature was computed. -/
theorem GetPresignedCallerIdentityURLAppend_cluster_not_signed :
    GetPresignedCallerIdentityURLAppend sig0 auth0 "test-cluster" creds0 =
      .ok { endpoint := "https://sts.us-east-1.amazonaws.com",
            signedParams := [("Action", "GetCallerIdentity"), ("Version", "2011-06-15")],
            signature := "examplesignature",
            postSignedSuffix := "&cluster-name=test-cluster" } ∧
    (headerEKSClusterID, "test-cluster") ∉
      ([("Action", "GetCallerIdentity"), ("Version", "2011-06-15")] :
        List (String × String)) :=
  ⟨rfl, by decide⟩

/-- C4 (amended, validating variant): NewAuthenticator of aws.go fails fast
with a distinct fixed message for each missing field, checked in order role,
session, region, token retriever, and succeeds on non-empty fields with a
present retriever. -/
theorem NewAuthenticator_validates (roleARN sessionID stsRegion : String)
    (tr : TokenRetriever) (endpoint : String) :
    (NewAuthenticator "" sessionID stsRegion (some tr) endpoint =
      .error "AWS role ARN is required") ∧
    (roleARN ≠ "" → NewAuthenticator roleARN "" stsRegion (some tr) endpoint =
      .error "session ID is required") ∧
    (roleARN ≠ "" → sessionID ≠ "" →
      NewAuthenticator roleARN sessionID "" (some tr) endpoint =
        .error "AWS STS region is required") ∧
    (roleARN ≠ "" → sessionID ≠ "" → stsRegion ≠ "" →
      NewAuthenticator roleARN sessionID stsRegion none endpoint =
        .error "token retriever is required") ∧
    (roleARN ≠ "" → sessionID ≠ "" → stsRegion ≠ "" →
      (NewAuthenticator roleARN sessionID stsRegion (some tr) endpoint).isOk = true) := by
  refine ⟨?_, ?_, ?_, ?_, ?_⟩ <;> intros <;> simp [NewAuthenticator, *]
  split <;> rfl

/-- Witness for C4 at concrete non-empty inputs. -/
theorem NewAuthenticator_validates_witness :
    (NewAuthenticator "arn:aws:iam::123456789012:role/test-role" "test-session"
      "us-east-1" (some trOk) "").isOk = true :=
  (NewAuthenticator_validates "arn:aws:iam::123456789012:role/test-role"
    "test-session" "us-east-1" trOk "").2.2.2.2 (by decide) (by decide) (by decide)

/-- C4 counterexample: the auth.go constructor performs no validation, so
construction succeeds even with an empty role ARN (after a successful config
load), contradicting the claim that construction fails for every empty role. -/
theorem authNewAuthenticator_empty_role_succeeds :
    (authNewAuthenticator (.ok ()) "" "test-session" "us-east-1" (some trOk)).isOk
      = true := rfl

/-- Model of Go strings.ReplaceAll for a single-character pattern: every
occurrence of a is replaced by b. -/
def replaceAll (s : String) (a b : Char) : String :=
  String.mk (s.data.map fun c => if c = a then b else c)

/-- CacheKey of pkg/cache/cache.go: the full federation scope. -/
structure CacheKey where
  awsRoleARN : String
  eksClusterName : String
  stsRegion : String

/-- Cache.getCacheFilePath (pkg/cache/cache.go lines 130-138), file-name part:
the role ARN has both / and : replaced by underscores, while the cluster name
and the region only have / replaced; the three parts are joined with
underscores and suffixed ".json". -/
def getCacheFileName (key : CacheKey) : String :=
  replaceAll (replaceAll key.awsRoleARN '/' '_') ':' '_' ++ "_" ++
    replaceAll key.eksClusterName '/' '_' ++ "_" ++
    replaceAll key.stsRegion '/' '_' ++ ".json"

/-- Characters of a replaced string are either the replacement or original
characters different from the pattern. -/
theorem replaceAll_mem {s : String} {a b c : Char}
    (h : c ∈ (replaceAll s a b).data) : c = b ∨ (c ∈ s.data ∧ c ≠ a) := by
  unfold replaceAll at h
  simp only [List.mem_map] at h
  obtain ⟨x, hx, hxc⟩ := h
  rcases eq_or_ne x a with rfl | hne
  · left
    simpa using hxc.symm
  · right
    rw [if_neg hne] at hxc
    exact hxc ▸ ⟨hx, hne⟩

/-- The replaced-away character does not occur after replacement. -/
theorem not_mem_replaceAll_self (s : String) {a b : Char} (hab : a ≠ b) :
    a ∉ (replaceAll s a b).data := fun h => by
  rcases replaceAll_mem h with h1 | ⟨_, h2⟩
  · exact hab h1
  · exact h2 rfl

/-- Replacement introduces no character other than the replacement itself. -/
theorem not_mem_replaceAll_of_not_mem {c : Char} (s : String) {a b : Char}
    (hcb : c ≠ b) (hcs : c ∉ s.data) : c ∉ (replaceAll s a b).data := fun h => by
  rcases replaceAll_mem h with h1 | ⟨h2, _⟩
  · exact hcb h1
  · exact hcs h2

/-- C5 (amended): the derived cache file name never contains a slash (replaced
in all three components); the colon is replaced only inside the role ARN
component, so the file name is colon-free exactly when the cluster name and
region are. -/
theorem getCacheFileName_sanitizes (key : CacheKey) :
    '/' ∉ (getCacheFileName key).data ∧
    (':' ∉ key.eksClusterName.data → ':' ∉ key.stsRegion.data →
      ':' ∉ (getCacheFileName key).data) := by
  constructor
  · intro h
    simp only [getCacheFileName, String.data_append, List.mem_append] at h
    rcases h with ((((h | h) | h) | h) | h) | h
    · rcases replaceAll_mem h with h1 | ⟨h2, _⟩
      · exact absurd h1 (by decide)
      · exact not_mem_replaceAll_self key.awsRoleARN (by decide) h2
    · exact absurd h (by decide)
    · exact not_mem_replaceAll_self key.eksClusterName (by decide) h
    · exact absurd h (by decide)
    · exact not_mem_replaceAll_self key.stsRegion (by decide) h
    · exact absurd h (by decide)
  · intro hc hr h
    simp only [getCacheFileName, String.data_append, List.mem_append] at h
    rcases h with ((((h | h) | h) | h) | h) | h
    · exact not_mem_replaceAll_self (replaceAll key.awsRoleARN '/' '_') (by decide) h
    · exact absurd h (by decide)
    · exact not_mem_replaceAll_of_not_mem key.eksClusterName (by decide) hc h
    · exact absurd h (by decide)
    · exact not_mem_replaceAll_of_not_mem key.stsRegion (by decide) hr h
    · exact absurd h (by decide)

/-- Witness for C5 at a key whose role ARN contains both separators. -/
theorem getCacheFileName_sanitizes_witness :
    '/' ∉ (getCacheFileName ⟨"arn:aws:iam::1:role/x", "clu", "reg"⟩).data ∧
      ':' ∉ (getCacheFileName ⟨"arn:aws:iam::1:role/x", "clu", "reg"⟩).data :=
  ⟨(getCacheFileName_sanitizes ⟨"arn:aws:iam::1:role/x", "clu", "reg"⟩).1,
    (getCacheFileName_sanitizes ⟨"arn:aws:iam::1:role/x", "clu", "reg"⟩).2
      (by decide) (by decide)⟩

/-- C5 counterexample: a colon in the cluster-name component survives into the
cache file name, so the file name is not free of both characters for every key. -/
theorem getCacheFileName_colon_survives :
    ':' ∈ (getCacheFileName ⟨"role", "clu:ster", "region"⟩).data := by decide

/-- CacheEntry of pkg/cache/cache.go: artifact bytes plus expiration. -/
structure CacheEntry where
  execCredential : List Nat
  expirationTime : Int

/-- Content of a cache file: a parseable entry or unparseable bytes. -/
inductive FileContent
  | entry (e : CacheEntry) : FileContent
  | corrupt : FileContent

/-- Go constant minValidityPeriod = 5 * time.Minute, in nanoseconds. -/
def minValidityPeriod : Int := 5 * 60 * 1000000000

/-- Cache.Get (pkg/cache/cache.go lines 83-106): a missing file, an
unparseable entry, or an entry with less than minValidityPeriod remaining are
all reported as a miss (found = false); the signature carries no error at all. -/
def cacheGet (fs : String → Option FileContent) (now : Int) (key : CacheKey) :
    Option (List Nat) × Bool :=
  match fs (getCacheFileName key) with
  | none => (none, false)
  | some .corrupt => (none, false)
  | some (.entry e) =>
    if e.expirationTime - now < minValidityPeriod then (none, false)
    else (some e.execCredential, true)

/-- Cache.Put (pkg/cache/cache.go lines 109-127), successful-write case: the
file at the key's path is overwritten with the marshalled entry. -/
def cachePut (fs : String → Option FileContent) (key : CacheKey)
    (execCredential : List Nat) (expirationTime : Int) :
    String → Option FileContent :=
  fun q => if q = getCacheFileName key then
    some (.entry ⟨execCredential, expirationTime⟩) else fs q

/-- C6: after a successful Put(k, v, exp), Get(k) returns (v, true) when at
least minValidityPeriod remains until exp, and found = false otherwise; a Get
on a missing or unparseable entry also returns found = false — and Get's type
carries no error in any of these cases. -/
theorem cache_put_get (fs : String → Option FileContent) (now : Int)
    (k : CacheKey) (v : List Nat) (exp : Int) :
    (exp - now ≥ minValidityPeriod →
      cacheGet (cachePut fs k v exp) now k = (some v, true)) ∧
    (exp - now < minValidityPeriod →
      (cacheGet (cachePut fs k v exp) now k).2 = false) ∧
    (fs (getCacheFileName k) = none → cacheGet fs now k = (none, false)) ∧
    (fs (getCacheFileName k) = some .corrupt → cacheGet fs now k = (none, false)) := by
  refine ⟨?_, ?_, ?_, ?_⟩
  · intro h
    unfold cacheGet cachePut
    rw [if_pos rfl]
    simp only
    rw [if_neg (by omega)]
  · intro h
    unfold cacheGet cachePut
    rw [if_pos rfl]
    simp only
    rw [if_pos (by omega)]
  · intro h
    unfold cacheGet
    rw [h]
  · intro h
    unfold cacheGet
    rw [h]

/-- Concrete cache key for witnesses. -/
def k0 : CacheKey := ⟨"arn:aws:iam::123456789012:role/test-role", "test-cluster", "us-east-1"⟩

/-- Witness for C6: at time 0, an entry stored with 30 minutes of validity is
returned, and one stored with 1 minute of validity is reported as a miss. -/
theorem cache_put_get_witness :
    cacheGet (cachePut (fun _ => none) k0 [104, 105] (30 * 60 * 1000000000)) 0 k0
        = (some [104, 105], true) ∧
      (cacheGet (cachePut (fun _ => none) k0 [104, 105] (60 * 1000000000)) 0 k0).2
        = false :=
  ⟨(cache_put_get (fun _ => none) 0 k0 [104, 105] (30 * 60 * 1000000000)).1
      (by decide),
    (cache_put_get (fun _ => none) 0 k0 [104, 105] (60 * 1000000000)).2.1
      (by decide)⟩

/-- Configuration fields of main.go consumed by run (cache flag and the cache
key components; the remaining flags feed excluded collaborators). -/
structure Config where
  cache : Bool
  awsRoleARN : String
  eksClusterName : String
  stsRegion : String

/-- Cache handle of pkg/cache/cache.go. -/
structure Cache where
  cacheDir : String

/-- Environment of one run: outcomes of the external calls made by main.go and
cache.NewCache — directory resolution and creation results, the cache file
system, the clock, and the results of the metadata, federation and presign
stages. -/
structure RunEnv where
  homeDir : Option String
  homeMkdirOk : Bool
  userCacheDir : Option String
  userCacheMkdirOk : Bool
  tempDir : String
  tempMkdirOk : Bool
  fs : String → Option FileContent
  now : Int
  sessionIDResult : Except String String
  tokenResult : Except String (List Nat)
  awsCfgLoad : Except String Unit
  credsResult : Except String Credentials
  presignResult : Except String String

/-- NewCache (pkg/cache/cache.go lines 39-80): home subpath, then user-cache
directory, then temporary directory; the first directory that can be created
wins, and when all three fail an error is returned. -/
def newCache (env : RunEnv) : Except String Cache :=
  let tryTemp : Except String Cache :=
    if env.tempMkdirOk then .ok ⟨env.tempDir ++ "/argocd-k8s-auth-gke-wli-eks"⟩
    else .error "failed to create cache directory in any known location"
  let tryUser : Except String Cache :=
    match env.userCacheDir with
    | some d => if env.userCacheMkdirOk then .ok ⟨d ++ "/argocd-k8s-auth-gke-wli-eks"⟩
        else tryTemp
    | none => tryTemp
  match env.homeDir with
  | some h =>
    if env.homeMkdirOk then .ok ⟨h ++ "/.kube/cache/argocd-k8s-auth-gke-wli-eks"⟩
    else tryUser
  | none => tryUser

/-- Go constant presignedURLExpiration = 30 * time.Minute of main.go, in
nanoseconds. -/
def presignedURLExpiration : Int := 30 * 60 * 1000000000

/-- What run writes to stdout: cached bytes or a freshly generated artifact. -/
inductive RunOutput
  | fromCache (cred : List Nat) : RunOutput
  | fresh (cred : ExecCredential) : RunOutput

/-- Byte view of an ASCII string, as Go's []byte conversion. -/
def strBytes (s : String) : List Nat := s.data.map Char.toNat

/-- The run function of main.go (lines 30-146): initialize the cache when
enabled (a NewCache error is returned, aborting the run), consult the cache,
and on a miss walk the pipeline: session identifier, identity token,
authenticator construction, credentials, presigned URL, exec credential. The
final Put's outcome is only logged, so the result does not depend on it. -/
def run (cfg : Config) (env : RunEnv) : Except String RunOutput :=
  let credCacheRes : Except String (Option Cache) :=
    if cfg.cache then
      match newCache env with
      | .error e => .error ("failed to initialize cache: " ++ e)
      | .ok c => .ok (some c)
    else .ok none
  match credCacheRes with
  | .error e => .error e
  | .ok credCache =>
    let cacheKey : CacheKey := ⟨cfg.awsRoleARN, cfg.eksClusterName, cfg.stsRegion⟩
    let cached : Option (List Nat) × Bool :=
      if cfg.cache then
        match credCache with
        | some _ => cacheGet env.fs env.now cacheKey
        | none => (none, false)
      else (none, false)
    match cached with
    | (some cred, true) => .ok (.fromCache cred)
    | _ =>
      match env.sessionIDResult with
      | .error e => .error ("failed to create session identifier: " ++ e)
      | .ok _sessionID =>
        match env.tokenResult with
        | .error e => .error ("failed to get GCP identity token: " ++ e)
        | .ok _token =>
          match env.awsCfgLoad with
          | .error e =>
            .error ("failed to create AWS authenticator: failed to load AWS config: " ++ e)
          | .ok _ =>
            match env.credsResult with
            | .error e => .error ("failed to get AWS credentials: " ++ e)
            | .ok _creds =>
              match env.presignResult with
              | .error e => .error ("failed to get presigned URL: " ++ e)
              | .ok presignedURL =>
                .ok (.fresh (generateExecCredential (strBytes presignedURL)
                  (env.now + presignedURLExpiration)))

/-- C7 (amended): when caching is enabled and no cache directory can be
created in any of the three candidate locations, run aborts with the
initialization error instead of proceeding without caching; with caching
disabled, the same directory failures are irrelevant and the pipeline runs to
completion. -/
theorem run_cacheInit_fatal (cfg : Config) (env : RunEnv) :
    (cfg.cache = true → env.homeMkdirOk = false → env.userCacheMkdirOk = false →
      env.tempMkdirOk = false →
      run cfg env = .error
        "failed to initialize cache: failed to create cache directory in any known location") ∧
    (cfg.cache = false → ∀ s tok c p, env.sessionIDResult = .ok s →
      env.tokenResult = .ok tok → env.awsCfgLoad = .ok () →
      env.credsResult = .ok c → env.presignResult = .ok p →
      run cfg env = .ok (.fresh (generateExecCredential (strBytes p)
        (env.now + presignedURLExpiration)))) := by
  constructor
  · intro hc h1 h2 h3
    unfold run newCache
    rw [hc, h1, h2, h3]
    cases env.homeDir <;> cases env.userCacheDir <;> simp
  · intro hc s tok c p hs ht ha hcr hp
    unfold run
    rw [hc, hs, ht, ha, hcr, hp]
    simp

/-- Concrete environment in which every cache directory creation fails and
every pipeline stage succeeds. -/
def env0 : RunEnv :=
  { homeDir := some "/home/u", homeMkdirOk := false,
    userCacheDir := some "/home/u/.cache", userCacheMkdirOk := false,
    tempDir := "/tmp", tempMkdirOk := false,
    fs := fun _ => none, now := 0,
    sessionIDResult := .ok "test-session", tokenResult := .ok [116],
    awsCfgLoad := .ok (), credsResult := .ok creds0,
    presignResult := .ok "https://sts.us-east-1.amazonaws.com/x" }

/-- Configuration with caching enabled. -/
def cfg0 : Config :=
  ⟨true, "arn:aws:iam::123456789012:role/test-role", "test-cluster", "us-east-1"⟩

/-- Configuration with caching disabled. -/
def cfgNoCache : Config :=
  ⟨false, "arn:aws:iam::123456789012:role/test-role", "test-cluster", "us-east-1"⟩

/-- C7 counterexample: with caching enabled and all three directory creations
failing, run aborts with the cache-initialization error even though every
pipeline stage would succeed — it does not proceed without caching. -/
theorem run_cache_init_failure_aborts :
    run cfg0 env0 = .error
      "failed to initialize cache: failed to create cache directory in any known location" :=
  rfl

/-- Witness for C7: with caching disabled the same environment completes the
pipeline and emits a fresh artifact. -/
theorem run_cacheInit_fatal_witness :
    run cfgNoCache env0 = .ok (.fresh (generateExecCredential
      (strBytes "https://sts.us-east-1.amazonaws.com/x")
      (0 + presignedURLExpiration))) :=
  (run_cacheInit_fatal cfgNoCache env0).2 rfl "test-session" [116] creds0
    "https://sts.us-east-1.amazonaws.com/x" rfl rfl rfl rfl rfl

/-- Go constant letterBytes of pkg/gcp/hybrid_metadata.go: the 36-character
fallback alphabet. -/
def letterBytes : List Char := "abcdefghijklmnopqrstuvwxyz0123456789".data

/-- generateRandomString of pkg/gcp/hybrid_metadata.go lines 233-249 (the
crypto/rand variant): randRead is the outcome of rand.Read — some r gives the
n random bytes, none models a read error. On success character i is
letterBytes[r[i] mod 36]; on failure the code falls back to the deterministic
string whose character i is letterBytes[i mod 36] rather than crashing. -/
def generateRandomString (randRead : Option (List Nat)) (n : Nat) : String :=
  match randRead with
  | none => String.mk ((List.range n).map fun i => letterBytes.getD (i % letterBytes.length) 'a')
  | some r => String.mk ((List.range n).map fun i => letterBytes.getD (r.getD i 0 % letterBytes.length) 'a')

/-- One step of the deterministic pseudorandom sequence. Go's math/rand source
is a deterministic generator fully determined by its seed; the properties
proved below depend only on that determinism, not on the exact sequence, so
the model uses the minimal-standard step 16807 * x mod (2^31 - 1). -/
def prngNext (x : Nat) : Nat := 16807 * x % 2147483647

/-- Characters drawn from the seeded pseudorandom sequence over letterBytes. -/
def prngChars : Nat → Nat → List Char
  | _, 0 => []
  | x, n + 1 => letterBytes.getD (prngNext x % letterBytes.length) 'a' :: prngChars (prngNext x) n

/-- generateRandomString of pkg/gcp/hybrid_metadata.go lines 112-120 (the
math/rand variant): r := rand.New(rand.NewSource(seed)) with seed =
time.Now().UnixNano(), then n draws of letterBytes[r.Intn(36)]. The output is
a pure function of the wall-clock seed. -/
def mathGenerateRandomString (seed : Int) (n : Nat) : String :=
  String.mk (prngChars (seed.natAbs % 2147483646 + 1) n)

/-- Fallback project identity of HybridMetadata.ProjectID (math/rand variant,
lines 37-46): "external-project-" plus an 8-character draw. Distinct
invocations are distinguished by the invocation argument, which the code never
consults — its only varying input is the wall-clock seed. -/
def fallbackProjectID (seed : Int) (_invocation : Nat) : String :=
  "external-project-" ++ mathGenerateRandomString seed 8

/-- C9: two distinct invocations of the math/rand fallback with the same
wall-clock seed produce the identical project identity, while the crypto/rand
variant yields different strings under different entropy — so the time-seeded
variant is not a cryptographically sound source. -/
theorem mathRand_fallback_collision :
    fallbackProjectID 1700000000000000000 1 = fallbackProjectID 1700000000000000000 2 ∧
    generateRandomString (some [5, 17, 3, 29, 11, 0, 33, 8]) 8 ≠
      generateRandomString (some [1, 2, 3, 4, 5, 6, 7, 8]) 8 :=
  ⟨rfl, by decide⟩

/-- HybridMetadata.CreateSessionIdentifier (pkg/gcp/hybrid_metadata.go lines
92-110): concatenate project identity and hostname with a hyphen and truncate
to 32 characters only when longer. -/
def CreateSessionIdentifier (projectID hostname : String) : String :=
  let sessionID := projectID ++ "-" ++ hostname
  if sessionID.length > 32 then String.mk (sessionID.data.take 32) else sessionID

/-- createSessionIdentifier of the legacy main (src/unnamed/part_008 lines
183-197): returns fmt.Sprintf of projectId-hostname sliced as [:32] with no
length guard; Go string slicing panics when the string is shorter than 32
bytes, modelled as none. -/
def createSessionIdentifierLegacy (projectId hostname : String) : Option String :=
  let s := projectId ++ "-" ++ hostname
  if s.length < 32 then none
  else some (String.mk (s.data.take 32))

/-- The hybrid session identifier is at most 32 characters and never empty. -/
theorem CreateSessionIdentifier_length (p h : String) :
    (CreateSessionIdentifier p h).length ≤ 32 ∧ CreateSessionIdentifier p h ≠ "" := by
  have hone : ("-" : String).length = 1 := rfl
  have hlen : (p ++ "-" ++ h).length = p.length + 1 + h.length := by
    simp [String.length_append, hone]
  unfold CreateSessionIdentifier
  dsimp only
  constructor
  · split
    · show ((p ++ "-" ++ h).data.take 32).length ≤ 32
      simp
    · omega
  · split
    · intro heq
      have h1 := congrArg String.length heq
      have h2 : ((p ++ "-" ++ h).data.take 32).length = 0 := h1
      rw [List.length_take] at h2
      have h3 : (p ++ "-" ++ h).data.length = (p ++ "-" ++ h).length := rfl
      rw [h3] at h2
      omega
    · intro heq
      have h0 : (p ++ "-" ++ h).length = 0 := congrArg String.length heq
      omega

/-- C8: on the failing input projectId = "a", hostname = "b" (joined length
3 < 32) the legacy createSessionIdentifier panics, while the hybrid
implementation returns the untruncated "a-b" as the claim describes. -/
theorem createSessionIdentifierLegacy_short_crash :
    createSessionIdentifierLegacy "a" "b" = none ∧
      CreateSessionIdentifier "a" "b" = "a-b" :=
  ⟨by decide, by decide⟩

/-- C10 (amended): on rand.Read failure the fallback string has length n and
character i equal to letterBytes[i mod 36]; for n at most 36 — in particular
n = 8, the only length used — this is the first n characters of the alphabet,
identical on every call. -/
theorem generateRandomString_readFailure_deterministic (n : Nat) :
    (generateRandomString none n).length = n ∧
    (n ≤ 36 → generateRandomString none n = String.mk (letterBytes.take n)) := by
  constructor
  · show ((List.range n).map fun i => letterBytes.getD (i % letterBytes.length) 'a').length = n
    simp
  · intro h
    unfold generateRandomString
    interval_cases n <;> rfl

/-- Witness for C10 at the call-site length n = 8. -/
theorem generateRandomString_readFailure_deterministic_witness :
    (generateRandomString none 8).length = 8 ∧
      generateRandomString none 8 = String.mk (letterBytes.take 8) :=
  ⟨(generateRandomString_readFailure_deterministic 8).1,
    (generateRandomString_readFailure_deterministic 8).2 (by decide)⟩

/-- C10 counterexample: at n = 40 the fallback is not the first n characters
of the 36-character alphabet (no such characters exist); it cycles the
alphabet instead. -/
theorem generateRandomString_readFailure_40 :
    generateRandomString none 40 ≠ String.mk (letterBytes.take 40) := by decide
